import Mathlib

/-!
Verification of the reducer core of a redux-style todo application.

The source (src/todo.js) defines three pure reducers and a selector:

* `todo (state, action)` — entity reducer for a single todo item;
* `todos (state = [], action)` — collection reducer over the todo list;
* `visibilityFilter (state = 'SHOW_ALL', action)` — scalar filter reducer;
* `getVisibleTodos (todos, filter)` — selector with a `switch` on the filter.

JavaScript `undefined` arguments are modelled with `Option`; a JavaScript
runtime `TypeError` (reading a property of `undefined`) is modelled with
`Except.error`, so that totality claims can be checked honestly.
-/

namespace TodoApp

/-- A todo item: `{id, text, completed}` as built by the `ADD_TODO` branch. -/
structure Todo where
  id : Nat
  text : String
  completed : Bool
deriving DecidableEq, Repr

/-- The tagged actions dispatched in the app. `other ty` stands for any
action object whose `type` string is none of the three recognized ones;
every reducer's `switch` sends it to the `default` branch. -/
inductive Action where
  | add_todo (id : Nat) (text : String)
  | toggle_todo (id : Nat)
  | set_visibility_filter (filter : String)
  | other (ty : String)
deriving DecidableEq, Repr

/-- Entity reducer `todo` from src/todo.js lines 5-25.

`state` may be `undefined` (the `todos` reducer calls `todo(undefined, action)`
on `ADD_TODO`), hence `Option Todo`. In the `TOGGLE_TODO` branch the source
reads `state.id`; when `state` is `undefined` that is a JavaScript `TypeError`,
modelled as `Except.error`. All other paths return normally. -/
def todo (state : Option Todo) (action : Action) : Except String (Option Todo) :=
  match action with
  | .add_todo i x => .ok (some { id := i, text := x, completed := false })
  | .toggle_todo i =>
    match state with
    | none => .error "TypeError: Cannot read property id of undefined"
    | some t =>
      if t.id ≠ i then .ok (some t)
      else .ok (some { t with completed := !t.completed })
  | _ => .ok state

/-- `state.map(t => todo(t, action))` from src/todo.js lines 40-42, with the
error of any element call propagated. The `.ok none` arm is unreachable for
the actions this is called with (proved in `todo_toggle_eq_toggleOne`). -/
def mapTodo : List Todo → Action → Except String (List Todo)
  | [], _ => .ok []
  | t :: ts, a =>
    match todo (some t) a with
    | .ok (some t') =>
      match mapTodo ts a with
      | .ok rest => .ok (t' :: rest)
      | .error e => .error e
    | .ok none => .error "entity reducer returned undefined"
    | .error e => .error e

/-- Collection reducer `todos` from src/todo.js lines 32-46. The JavaScript
default parameter `state = []` is modelled by an `Option` input. On
`ADD_TODO` the source appends `todo(undefined, action)`; the `.ok none` and
`.error` arms of that inner match are unreachable because the entity
reducer's `ADD_TODO` branch always builds an object. -/
def todos (state : Option (List Todo)) (action : Action) : Except String (List Todo) :=
  let s := state.getD []
  match action with
  | .add_todo .. =>
    match todo none action with
    | .ok (some t) => .ok (s ++ [t])
    | .ok none => .ok s
    | .error e => .error e
  | .toggle_todo .. => mapTodo s action
  | _ => .ok s

/-- Filter reducer `visibilityFilter` from src/todo.js lines 50-60, with the
default parameter `state = 'SHOW_ALL'` modelled by an `Option` input. -/
def visibilityFilter (state : Option String) (action : Action) : String :=
  let s := state.getD "SHOW_ALL"
  match action with
  | .set_visibility_filter f => f
  | _ => s

/-- Selector `getVisibleTodos` from src/todo.js lines 293-302: a `switch`
on the filter string with no `default` case, so an unmatched filter value
yields `undefined`, modelled as `none`. -/
def getVisibleTodos (todos : List Todo) (filter : String) : Option (List Todo) :=
  if filter = "SHOW_ALL" then some todos
  else if filter = "SHOW_ACTIVE" then some (todos.filter (fun t => !t.completed))
  else if filter = "SHOW_COMPLETED" then some (todos.filter (fun t => t.completed))
  else none

/-- What the `TOGGLE_TODO` branch of the entity reducer does to one present
todo: flip `completed` when the id matches, otherwise leave it alone. -/
def toggleOne (i : Nat) (t : Todo) : Todo :=
  if t.id = i then { t with completed := !t.completed } else t

theorem todo_toggle_eq_toggleOne (t : Todo) (i : Nat) :
    todo (some t) (.toggle_todo i) = .ok (some (toggleOne i t)) := by
  by_cases h : t.id = i <;> simp [todo, toggleOne, h]

theorem mapTodo_toggle_eq_map (s : List Todo) (i : Nat) :
    mapTodo s (.toggle_todo i) = .ok (s.map (toggleOne i)) := by
  induction s with
  | nil => rfl
  | cons t ts ih => simp [mapTodo, todo_toggle_eq_toggleOne, ih]

theorem toggleOne_id_eq (i : Nat) (t : Todo) : (toggleOne i t).id = t.id := by
  unfold toggleOne; split <;> rfl

theorem toggleOne_text_eq (i : Nat) (t : Todo) : (toggleOne i t).text = t.text := by
  unfold toggleOne; split <;> rfl

/-- C1: on an `ADD_TODO` action carrying `id` and `text`, the entity reducer
ignores its current argument (any `Option Todo`, `undefined` included) and
returns the new todo `{id := action.id, text := action.text, completed := false}`. -/
theorem todo_add_creates (s : Option Todo) (i : Nat) (x : String) :
    todo s (.add_todo i x) = .ok (some { id := i, text := x, completed := false }) := rfl

/-- C2: on `TOGGLE_TODO`, if the current todo's id differs from the action's id
the entity reducer returns the current todo itself; if they agree it returns a
new todo with `completed` negated and `id` and `text` unchanged. -/
theorem todo_toggle_cases (t : Todo) (i : Nat) :
    (t.id ≠ i → todo (some t) (.toggle_todo i) = .ok (some t)) ∧
    (t.id = i → todo (some t) (.toggle_todo i) =
      .ok (some { id := t.id, text := t.text, completed := !t.completed })) := by
  constructor <;> intro h <;> simp [todo, h]

theorem todo_toggle_cases_check :
    todo (some { id := 0, text := "buy milk", completed := false }) (.toggle_todo 1) =
      .ok (some { id := 0, text := "buy milk", completed := false }) ∧
    todo (some { id := 0, text := "buy milk", completed := false }) (.toggle_todo 0) =
      .ok (some { id := 0, text := "buy milk", completed := true }) :=
  ⟨(todo_toggle_cases { id := 0, text := "buy milk", completed := false } 1).1 (by decide),
   (todo_toggle_cases { id := 0, text := "buy milk", completed := false } 0).2 rfl⟩

/-- C3 counterexample: the entity reducer is NOT total on every current value:
with current `undefined` and a `TOGGLE_TODO` action, the source reads
`state.id` of `undefined` and throws a TypeError instead of returning. -/
theorem todo_undefined_toggle_throws :
    todo none (.toggle_todo 0) =
      .error "TypeError: Cannot read property id of undefined" := rfl

/-- C3 amended: the entity reducer returns without throwing for every defined
current todo and every action, and for an undefined current on `ADD_TODO` and
default-branch actions; it throws exactly when the current argument is
undefined and the action is a `TOGGLE_TODO`. -/
theorem todo_error_characterization (s : Option Todo) (a : Action) :
    (∃ e, todo s a = .error e) ↔ (s = none ∧ ∃ i, a = .toggle_todo i) := by
  cases a <;> cases s <;> simp [todo]
  intro x
  split <;> simp

theorem todo_error_characterization_check :
    ∃ e, todo none (.toggle_todo 0) = .error e :=
  (todo_error_characterization none (.toggle_todo 0)).mpr ⟨rfl, 0, rfl⟩

/-- C4: on `ADD_TODO` the collection reducer returns the input list with
exactly one element appended at the end, that element having
`completed = false`; the result's length is the input's length plus one; and
on every action a returned list is at least as long as the input. -/
theorem todos_add_appends (s : List Todo) (i : Nat) (x : String) (a : Action) :
    todos (some s) (.add_todo i x) =
      .ok (s ++ [{ id := i, text := x, completed := false }]) ∧
    (s ++ [({ id := i, text := x, completed := false } : Todo)]).length = s.length + 1 ∧
    (∀ r, todos (some s) a = .ok r → s.length ≤ r.length) := by
  refine ⟨rfl, by simp, ?_⟩
  intro r hr
  cases a with
  | add_todo j y =>
    simp only [todos, todo, Option.getD_some] at hr
    cases hr
    simp
  | toggle_todo j =>
    simp only [todos, Option.getD_some, mapTodo_toggle_eq_map] at hr
    cases hr
    simp
  | set_visibility_filter f =>
    simp only [todos, Option.getD_some] at hr
    cases hr
    exact Nat.le_refl _
  | other ty =>
    simp only [todos, Option.getD_some] at hr
    cases hr
    exact Nat.le_refl _

theorem todos_add_appends_check :
    todos (some []) (.add_todo 0 "buy milk") =
      .ok [{ id := 0, text := "buy milk", completed := false }] ∧
    ([] : List Todo).length ≤
      [({ id := 0, text := "buy milk", completed := false } : Todo)].length :=
  ⟨(todos_add_appends [] 0 "buy milk" (.add_todo 0 "buy milk")).1,
   (todos_add_appends [] 0 "buy milk" (.add_todo 0 "buy milk")).2.2 _ rfl⟩

/-- C5: on `TOGGLE_TODO` the collection reducer maps the entity reducer over
the list positionally: the result is `s.map (toggleOne i)`, where `toggleOne i`
is exactly what the entity reducer returns on each element; the length, and
the `id` and `text` of every element (hence the order), are preserved. -/
theorem todos_toggle_pointwise (s : List Todo) (i : Nat) :
    todos (some s) (.toggle_todo i) = .ok (s.map (toggleOne i)) ∧
    (∀ t, todo (some t) (.toggle_todo i) = .ok (some (toggleOne i t))) ∧
    (s.map (toggleOne i)).length = s.length ∧
    (s.map (toggleOne i)).map Todo.id = s.map Todo.id ∧
    (s.map (toggleOne i)).map Todo.text = s.map Todo.text := by
  refine ⟨?_, fun t => todo_toggle_eq_toggleOne t i, by simp, ?_, ?_⟩
  · simp [todos, mapTodo_toggle_eq_map]
  · simp [List.map_map, Function.comp_def, toggleOne_id_eq]
  · simp [List.map_map, Function.comp_def, toggleOne_text_eq]

/-- C6: on an action whose type is none of the three recognized ones, both the
collection reducer and the filter reducer return their input state unchanged:
an unrecognized action is a no-op, not an error. -/
theorem unrecognized_action_noop (s : List Todo) (f ty : String) :
    todos (some s) (.other ty) = .ok s ∧ visibilityFilter (some f) (.other ty) = f :=
  ⟨rfl, rfl⟩

/-- C7: toggling a todo twice with a matching id yields a todo equal by value
to the original: the first application flips `completed`, and feeding the
result back in with the same action restores the original todo. -/
theorem todo_toggle_involutive (t : Todo) (i : Nat) (h : t.id = i) :
    ∃ t1, todo (some t) (.toggle_todo i) = .ok (some t1) ∧
      todo (some t1) (.toggle_todo i) = .ok (some t) := by
  refine ⟨toggleOne i t, todo_toggle_eq_toggleOne t i, ?_⟩
  rw [todo_toggle_eq_toggleOne]
  cases t with
  | mk tid tx tc =>
    simp only [Todo.id] at h
    simp [toggleOne, h]

theorem todo_toggle_involutive_check :
    ∃ t1, todo (some { id := 0, text := "buy milk", completed := false })
        (.toggle_todo 0) = .ok (some t1) ∧
      todo (some t1) (.toggle_todo 0) =
        .ok (some { id := 0, text := "buy milk", completed := false }) :=
  todo_toggle_involutive { id := 0, text := "buy milk", completed := false } 0 rfl

/-- C8: dispatching `TOGGLE_TODO` with an id that matches no element of the
list leaves the collection reducer's result equal to the input list. -/
theorem todos_toggle_absent_id (s : List Todo) (i : Nat)
    (h : ∀ t ∈ s, t.id ≠ i) :
    todos (some s) (.toggle_todo i) = .ok s := by
  have hmap : s.map (toggleOne i) = s := by
    induction s with
    | nil => rfl
    | cons t ts ih =>
      have ht : toggleOne i t = t := by
        simp [toggleOne, h t (List.mem_cons_self t ts)]
      simp [ht, ih fun u hu => h u (List.mem_cons_of_mem t hu)]
  simp [todos, mapTodo_toggle_eq_map, hmap]

theorem todos_toggle_absent_id_check :
    todos (some [{ id := 0, text := "buy milk", completed := false }]) (.toggle_todo 1) =
      .ok [{ id := 0, text := "buy milk", completed := false }] :=
  todos_toggle_absent_id [{ id := 0, text := "buy milk", completed := false }] 1
    (by intro t ht; simp at ht; simp [ht])

/-- C9: the filter reducer returns `action.filter` verbatim on
`SET_VISIBILITY_FILTER` for any current state and any filter string (no
validation); on every other action it returns the current value unchanged,
which defaults to `"SHOW_ALL"` when the current state is absent. -/
theorem visibilityFilter_spec (s : Option String) (f : String) (a : Action)
    (h : ∀ g, a ≠ .set_visibility_filter g) :
    visibilityFilter s (.set_visibility_filter f) = f ∧
    visibilityFilter s a = s.getD "SHOW_ALL" := by
  refine ⟨rfl, ?_⟩
  cases a with
  | set_visibility_filter g => exact absurd rfl (h g)
  | add_todo i x => rfl
  | toggle_todo i => rfl
  | other ty => rfl

theorem visibilityFilter_spec_check :
    visibilityFilter (some "SHOW_ACTIVE") (.set_visibility_filter "BOGUS") = "BOGUS" ∧
    visibilityFilter none (.add_todo 0 "buy milk") = "SHOW_ALL" :=
  ⟨(visibilityFilter_spec (some "SHOW_ACTIVE") "BOGUS" (.add_todo 0 "buy milk")
      (by intro g hg; cases hg)).1,
   (visibilityFilter_spec none "BOGUS" (.add_todo 0 "buy milk")
      (by intro g hg; cases hg)).2⟩

/-- C10: for any filter string outside the three enumerated values, the
selector's `switch` has no default case, so `getVisibleTodos` produces no
value (`none`), rather than the full list or an error. -/
theorem getVisibleTodos_invalid_filter (ts : List Todo) (f : String)
    (h1 : f ≠ "SHOW_ALL") (h2 : f ≠ "SHOW_ACTIVE") (h3 : f ≠ "SHOW_COMPLETED") :
    getVisibleTodos ts f = none := by
  simp [getVisibleTodos, h1, h2, h3]

theorem getVisibleTodos_invalid_filter_check :
    getVisibleTodos [{ id := 0, text := "buy milk", completed := false }] "SHOW_NONE" =
      none :=
  getVisibleTodos_invalid_filter [{ id := 0, text := "buy milk", completed := false }]
    "SHOW_NONE" (by decide) (by decide) (by decide)

end TodoApp
